import Mathlib

/-!
Shallow embedding of the MandiGPT price-acquisition and market-analysis
subsystem (`free_commodity_service.py`) and of the crop-suitability scorer
(`agricultural_database.py`).

Conventions of the embedding:
* Python floats become exact rationals (`ℚ`); `round(x, 2)` becomes the
  round-half-to-even function `round2` below.
* The mock-price catalog (`self.mock_prices`, loaded from JSON) is a
  parameter: an association list `List (String × PriceEntry)` in insertion
  order, looked up with `List.lookup` (Python dict lookup).
* Network calls are oracles passed as function parameters; a call that may
  raise is modelled as `Except String _`, with the surrounding
  `try/except` handlers translated to `match` on the `Except`.
* `random.uniform(-variation, variation)` is modelled by a parameter `u`,
  constrained by hypotheses `-variation ≤ u ∧ u ≤ variation` in theorems.
* `datetime` timestamps and the formatted date strings in trend histories
  are omitted: no claim mentions them, and they would only thread an
  opaque clock value through every record.
-/

/-- Location as used by the service: only the `state` field is read. -/
structure Location where
  state : String
deriving Repr, DecidableEq

/-- CommodityPrice from models.py as used here (date omitted, see header). -/
structure CommodityPrice where
  commodity_name : String
  current_price : ℚ
  price_trend : String
  market_location : String
deriving Repr, DecidableEq

/-- One entry of the mock-price catalog `self.mock_prices` (a JSON object
with keys current_price, trend, markets, unit). -/
structure PriceEntry where
  current_price : ℚ
  trend : String
  markets : List String
  unit : String
deriving Repr, DecidableEq

/-- Round a rational to the nearest integer, ties to even: the rounding
used by Python's builtin `round` on the exact value. -/
def rne (y : ℚ) : ℤ :=
  let n := ⌊y⌋
  let f := y - n
  if f < 1/2 then n
  else if 1/2 < f then n + 1
  else if n % 2 = 0 then n else n + 1

/-- Python `round(x, 2)`: round half-to-even at two decimal places. -/
def round2 (x : ℚ) : ℚ := (rne (x * 100) : ℚ) / 100

/-- The fixed state→market table inside `_find_closest_market`. -/
def state_market_mapping : List (String × String) :=
  [("Delhi", "Delhi"),
   ("Haryana", "Delhi"),
   ("Punjab", "Punjab"),
   ("UP", "UP"),
   ("Uttar Pradesh", "UP"),
   ("Maharashtra", "Mumbai"),
   ("Gujarat", "Gujarat"),
   ("Karnataka", "Karnataka"),
   ("Tamil Nadu", "Chennai"),
   ("West Bengal", "Kolkata"),
   ("Bihar", "Bihar"),
   ("Rajasthan", "Rajasthan"),
   ("Madhya Pradesh", "Madhya Pradesh"),
   ("Andhra Pradesh", "Andhra Pradesh"),
   ("Telangana", "Telangana"),
   ("Kerala", "Kerala"),
   ("Odisha", "Odisha"),
   ("Assam", "Assam")]

/-- `_find_closest_market`: `state_market_mapping.get(location.state,
markets[0] if markets else location.state)`. -/
def find_closest_market (location : Location) (markets : List String) : String :=
  match List.lookup location.state state_market_mapping with
  | some m => m
  | none =>
    match markets with
    | m :: _ => m
    | [] => location.state

/-- `_create_mock_price`: catalog lookup with a default entry for unknown
commodities, market resolution, and a bounded random variation `u` around
the baseline (the draw `random.uniform(-variation, variation)` is the
parameter `u`; theorems constrain it to `|u| ≤ 0.1 × baseline`). -/
def create_mock_price (mock_prices : List (String × PriceEntry))
    (commodity : String) (location : Location) (u : ℚ) : CommodityPrice :=
  let price_data :=
    match List.lookup commodity mock_prices with
    | none =>
      { current_price := 2000, trend := "stable",
        markets := [location.state], unit := "quintal" : PriceEntry }
    | some pd => pd
  let closest_market := find_closest_market location price_data.markets
  let base_price := price_data.current_price
  let current_price := base_price + u
  { commodity_name := commodity
    current_price := round2 current_price
    price_trend := price_data.trend
    market_location := closest_market }

/-- Resolution of a single commodity inside the `get_commodity_prices`
loop body: a fetch returning a price is used as-is; a fetch returning
nothing, and any exception raised in the pipeline (the `except` branch),
fall back to `_create_mock_price`. -/
def resolve_commodity (mock_prices : List (String × PriceEntry))
    (fetch : String → Except String (Option CommodityPrice))
    (rng : String → ℚ) (location : Location) (commodity : String) : CommodityPrice :=
  match fetch commodity with
  | .ok (some real_price) => real_price
  | .ok none => create_mock_price mock_prices commodity location (rng commodity)
  | .error _ => create_mock_price mock_prices commodity location (rng commodity)

/-- The effective commodity list: `commodities` when given, else
`list(self.mock_prices.keys())` in catalog order. -/
def effective_commodities (mock_prices : List (String × PriceEntry))
    (commodities : Option (List String)) : List String :=
  match commodities with
  | none => mock_prices.map Prod.fst
  | some cs => cs

/-- The `for commodity in commodities` loop of `get_commodity_prices`,
appending one resolved price per commodity to the accumulator `prices`. -/
def get_commodity_prices_loop (mock_prices : List (String × PriceEntry))
    (fetch : String → Except String (Option CommodityPrice))
    (rng : String → ℚ) (location : Location) :
    List String → List CommodityPrice → List CommodityPrice
  | [], prices => prices
  | c :: rest, prices =>
    get_commodity_prices_loop mock_prices fetch rng location rest
      (prices ++ [resolve_commodity mock_prices fetch rng location c])

/-- `get_commodity_prices`: per-commodity resolution over the effective
commodity list, starting from the empty `prices` accumulator. -/
def get_commodity_prices (mock_prices : List (String × PriceEntry))
    (fetch : String → Except String (Option CommodityPrice))
    (rng : String → ℚ) (location : Location)
    (commodities : Option (List String)) : List CommodityPrice :=
  get_commodity_prices_loop mock_prices fetch rng location
    (effective_commodities mock_prices commodities) []

/-- The Agmarknet commodity-code table inside `_fetch_agmarknet_price`. -/
def commodity_codes : List (String × String) :=
  [("Rice", "1101"),
   ("Wheat", "1102"),
   ("Maize", "1103"),
   ("Sugarcane", "1104"),
   ("Cotton", "1105"),
   ("Soybean", "1106"),
   ("Groundnut", "1107"),
   ("Potato", "1108"),
   ("Onion", "1109"),
   ("Tomato", "1110")]

/-- One record of the `price` array in an Agmarknet JSON payload:
`latest_price.get('price', 0)` and `latest_price.get('market', ...)`. -/
structure AgmarknetRecord where
  price : Option ℚ
  market : Option String
deriving Repr, DecidableEq

/-- An Agmarknet HTTP response: status code and the `data.get('price', [])`
array of the decoded JSON body. -/
structure AgmarknetResponse where
  status_code : ℕ
  prices : List AgmarknetRecord
deriving Repr, DecidableEq

/-- `_fetch_agmarknet_price`: code lookup, HTTP GET (the oracle `http`,
keyed by commodity code; a raised exception is the `.error` case, caught
and turned into `none`), and construction of a CommodityPrice from the
first record of a 200 response with a non-empty price array. -/
def fetch_agmarknet_price (http : String → Except String AgmarknetResponse)
    (commodity : String) (location : Location) : Option CommodityPrice :=
  match List.lookup commodity commodity_codes with
  | none => none
  | some commodity_code =>
    match http commodity_code with
    | .error _ => none
    | .ok response =>
      if response.status_code = 200 then
        match response.prices with
        | [] => none
        | latest_price :: _ =>
          some { commodity_name := commodity
                 current_price := latest_price.price.getD 0
                 price_trend := "stable"
                 market_location := latest_price.market.getD location.state }
      else none

/-- The per-day pre-floor trend price of `get_price_trends`: three branches
selected by the catalog trend label (any label other than "increasing" and
"decreasing" takes the stable branch). -/
def trend_price (base_price : ℚ) (trend : String) (i : ℕ) : ℚ :=
  if trend = "increasing" then base_price + (i * 15 : ℕ) + (i * i : ℕ) * (1/2)
  else if trend = "decreasing" then base_price - (i * 8 : ℕ) + (i * i : ℕ) * (1/5)
  else base_price + (if i % 2 = 0 then (i : ℚ) * 5 else -(i : ℚ) * 3)

/-- The successful result of `get_price_trends` (dates omitted from the
history, see the header; `source` is a constant string, omitted). -/
structure TrendResult where
  commodity : String
  trend : String
  price_history : List ℚ
  current_price : ℚ
  price_change : ℚ
deriving Repr, DecidableEq

/-- `get_price_trends`: the `{"error": "Commodity not found"}` dict is the
`.error` case; each history price is floored at half the baseline; for
`days = 0` the Python `prices[-1]` / `prices[0]` indexing raises, which is
the `"IndexError"` case. -/
def get_price_trends (mock_prices : List (String × PriceEntry))
    (commodity : String) (days : ℕ) : Except String TrendResult :=
  match List.lookup commodity mock_prices with
  | none => .error "Commodity not found"
  | some pd =>
    let base_price := pd.current_price
    let trend := pd.trend
    let prices := (List.range days).map
      (fun i => max (trend_price base_price trend i) (base_price * (1/2)))
    match prices.head?, prices.getLast? with
    | some first, some last =>
      .ok { commodity := commodity
            trend := trend
            price_history := prices
            current_price := base_price
            price_change := last - first }
    | _, _ => .error "IndexError"

/-- Count of prices in a batch carrying a given trend label, as computed by
the generator expressions in `get_market_analysis`. -/
def count_trend (prices : List CommodityPrice) (t : String) : ℕ :=
  (prices.filter (fun p => p.price_trend = t)).length

/-- `_calculate_market_sentiment`. -/
def calculate_market_sentiment (increasing decreasing stable : ℕ) : String :=
  let total := increasing + decreasing + stable
  if total = 0 then "Neutral"
  else
    let increasing_pct : ℚ := ((increasing : ℚ) / (total : ℚ)) * 100
    let decreasing_pct : ℚ := ((decreasing : ℚ) / (total : ℚ)) * 100
    if increasing_pct > 60 then "Bullish"
    else if decreasing_pct > 60 then "Bearish"
    else "Neutral"

/-- `_get_market_recommendation` (0.6 written as the rational 3/5). -/
def get_market_recommendation (increasing decreasing total : ℕ) : String :=
  if total = 0 then "No data available"
  else if (increasing : ℚ) > (total : ℚ) * (3/5) then
    "Market is showing strong upward trends - good time for planting high-value crops"
  else if (decreasing : ℚ) > (total : ℚ) * (3/5) then
    "Market is declining - consider diversifying or focusing on staple crops"
  else "Market is stable - focus on crops with consistent demand"

/-- Python `max(prices, key=lambda x: x.current_price)`: first element is
the initial candidate, replaced only on a strictly greater key, so ties
keep the earliest occurrence. -/
def max_by_price (p : CommodityPrice) (ps : List CommodityPrice) : CommodityPrice :=
  ps.foldl (fun b q => if q.current_price > b.current_price then q else b) p

/-- Python `min(prices, key=lambda x: x.current_price)`, ties keeping the
earliest occurrence. -/
def min_by_price (p : CommodityPrice) (ps : List CommodityPrice) : CommodityPrice :=
  ps.foldl (fun b q => if q.current_price < b.current_price then q else b) p

/-- The `trend_distribution` mapping of the analysis result. -/
structure TrendDistribution where
  increasing : ℕ
  decreasing : ℕ
  stable : ℕ
deriving Repr, DecidableEq

/-- A best/worst performing entry of the analysis result. -/
structure PerfEntry where
  commodity : String
  price : ℚ
  trend : String
deriving Repr, DecidableEq

/-- The successful result of `get_market_analysis` (`data_source` is a
constant string, omitted). -/
structure MarketSummary where
  market_sentiment : String
  average_price : ℚ
  trend_distribution : TrendDistribution
  best_performing : PerfEntry
  worst_performing : PerfEntry
  market_recommendation : String
deriving Repr, DecidableEq

/-- `get_market_analysis`: the `{"error": "No price data available"}` dict
for an empty batch is the `.error` case; otherwise trend counts, rounded
average, best/worst performers, sentiment and recommendation. -/
def get_market_analysis (prices : List CommodityPrice) : Except String MarketSummary :=
  match prices with
  | [] => .error "No price data available"
  | p :: ps =>
    let all := p :: ps
    let total_commodities := all.length
    let increasing_trends := count_trend all "increasing"
    let decreasing_trends := count_trend all "decreasing"
    let stable_trends := count_trend all "stable"
    let avg_price := (all.map (fun q => q.current_price)).sum / (all.length : ℚ)
    let best_commodity := max_by_price p ps
    let worst_commodity := min_by_price p ps
    .ok { market_sentiment :=
            calculate_market_sentiment increasing_trends decreasing_trends stable_trends
          average_price := round2 avg_price
          trend_distribution :=
            { increasing := increasing_trends
              decreasing := decreasing_trends
              stable := stable_trends }
          best_performing :=
            { commodity := best_commodity.commodity_name
              price := best_commodity.current_price
              trend := best_commodity.price_trend }
          worst_performing :=
            { commodity := worst_commodity.commodity_name
              price := worst_commodity.current_price
              trend := worst_commodity.price_trend }
          market_recommendation :=
            get_market_recommendation increasing_trends decreasing_trends total_commodities }

/-- The fields of a crop-database entry read by `get_crop_suitability`
(the crop database itself is loaded from `crop_data.json` and is a
parameter of the embedding). -/
structure CropInfo where
  temperature_range : ℚ × ℚ
  rainfall_requirement : ℚ × ℚ
  humidity_requirement : ℚ × ℚ
deriving Repr, DecidableEq

/-- One entry of `_initialize_regional_data` (soil type as a string). -/
structure RegionalInfo where
  soil_type : String
  climate : String
  major_crops : List String
  irrigation_coverage : ℚ
  average_rainfall : ℚ
deriving Repr, DecidableEq

/-- The fixed regional table built by `_initialize_regional_data`. -/
def regional_data : List (String × RegionalInfo) :=
  [("Punjab",
    { soil_type := "ALLUVIAL", climate := "Semi-arid",
      major_crops := ["Wheat", "Rice", "Cotton", "Sugarcane"],
      irrigation_coverage := 95, average_rainfall := 500 }),
   ("Haryana",
    { soil_type := "ALLUVIAL", climate := "Semi-arid",
      major_crops := ["Wheat", "Rice", "Cotton", "Sugarcane"],
      irrigation_coverage := 90, average_rainfall := 600 }),
   ("Uttar Pradesh",
    { soil_type := "ALLUVIAL", climate := "Tropical",
      major_crops := ["Wheat", "Rice", "Sugarcane", "Potato"],
      irrigation_coverage := 70, average_rainfall := 1000 }),
   ("Maharashtra",
    { soil_type := "BLACK", climate := "Tropical",
      major_crops := ["Sugarcane", "Cotton", "Soybean", "Onion"],
      irrigation_coverage := 60, average_rainfall := 800 }),
   ("Gujarat",
    { soil_type := "BLACK", climate := "Arid",
      major_crops := ["Cotton", "Groundnut", "Wheat", "Onion"],
      irrigation_coverage := 50, average_rainfall := 400 }),
   ("Karnataka",
    { soil_type := "RED", climate := "Tropical",
      major_crops := ["Maize", "Sugarcane", "Tomato", "Onion"],
      irrigation_coverage := 40, average_rainfall := 1200 }),
   ("Tamil Nadu",
    { soil_type := "RED", climate := "Tropical",
      major_crops := ["Rice", "Sugarcane", "Groundnut", "Cotton"],
      irrigation_coverage := 80, average_rainfall := 1000 }),
   ("West Bengal",
    { soil_type := "ALLUVIAL", climate := "Tropical",
      major_crops := ["Rice", "Potato", "Jute", "Tea"],
      irrigation_coverage := 85, average_rainfall := 1500 })]

/-- Weather conditions dict: `weather_conditions.get(key, default)` is
modelled by `Option` fields with `getD` at the use sites. -/
structure WeatherConditions where
  temperature : Option ℚ
  rainfall : Option ℚ
  humidity : Option ℚ
deriving Repr, DecidableEq

/-- `get_crop_suitability`: 0.0 for a crop absent from the database, else
the sum of the three closeness-to-range scores and the regional score,
divided by the factor count (always 4). -/
def get_crop_suitability (crop_data : List (String × CropInfo))
    (crop location : String) (weather_conditions : WeatherConditions) : ℚ :=
  match List.lookup crop crop_data with
  | none => 0
  | some crop_info =>
    let temp := weather_conditions.temperature.getD 25
    let temp_range := crop_info.temperature_range
    let temp_score : ℚ :=
      if temp_range.1 ≤ temp ∧ temp ≤ temp_range.2 then 1
      else max 0 (1 - min |temp - temp_range.1| |temp - temp_range.2| / 10)
    let rainfall := weather_conditions.rainfall.getD 500
    let rain_range := crop_info.rainfall_requirement
    let rain_score : ℚ :=
      if rain_range.1 ≤ rainfall ∧ rainfall ≤ rain_range.2 then 1
      else max 0 (1 - min |rainfall - rain_range.1| |rainfall - rain_range.2| / 500)
    let humidity := weather_conditions.humidity.getD 60
    let humidity_range := crop_info.humidity_requirement
    let humidity_score : ℚ :=
      if humidity_range.1 ≤ humidity ∧ humidity ≤ humidity_range.2 then 1
      else max 0 (1 - min |humidity - humidity_range.1| |humidity - humidity_range.2| / 20)
    let regional_score : ℚ :=
      match List.lookup location regional_data with
      | some regional_info => if crop ∈ regional_info.major_crops then 1 else 1/2
      | none => 0
    (temp_score + rain_score + humidity_score + regional_score) / 4

/-- The claim's reading of the crop-suitability formula, written from the
spec's words for comparison with `get_crop_suitability`: the same three
closeness scores, but a regional-match term that is 1.0 when the crop is a
major crop of the location and 0.5 in every other case (the code instead
contributes 0 when the location is absent from the regional table). -/
def crop_suitability_per_claim (crop_data : List (String × CropInfo))
    (crop location : String) (weather_conditions : WeatherConditions) : ℚ :=
  match List.lookup crop crop_data with
  | none => 0
  | some crop_info =>
    let temp := weather_conditions.temperature.getD 25
    let temp_range := crop_info.temperature_range
    let temp_score : ℚ :=
      if temp_range.1 ≤ temp ∧ temp ≤ temp_range.2 then 1
      else max 0 (1 - min |temp - temp_range.1| |temp - temp_range.2| / 10)
    let rainfall := weather_conditions.rainfall.getD 500
    let rain_range := crop_info.rainfall_requirement
    let rain_score : ℚ :=
      if rain_range.1 ≤ rainfall ∧ rainfall ≤ rain_range.2 then 1
      else max 0 (1 - min |rainfall - rain_range.1| |rainfall - rain_range.2| / 500)
    let humidity := weather_conditions.humidity.getD 60
    let humidity_range := crop_info.humidity_requirement
    let humidity_score : ℚ :=
      if humidity_range.1 ≤ humidity ∧ humidity ≤ humidity_range.2 then 1
      else max 0 (1 - min |humidity - humidity_range.1| |humidity - humidity_range.2| / 20)
    let regional_score : ℚ :=
      match List.lookup location regional_data with
      | some regional_info => if crop ∈ regional_info.major_crops then 1 else 1/2
      | none => 1/2
    (temp_score + rain_score + humidity_score + regional_score) / 4

/-! Helper lemmas. -/

/-- A successful association-list lookup finds a pair of the list. -/
theorem lookup_mem {α β : Type} [BEq α] [LawfulBEq α] :
    ∀ (l : List (α × β)) (a : α) (b : β), List.lookup a l = some b → (a, b) ∈ l
  | [], _, _, h => by simp [List.lookup] at h
  | (a', b') :: l, a, b, h => by
    by_cases hab : a = a'
    · subst hab
      simp [List.lookup] at h
      simp [h]
    · have hne : (a == a') = false := beq_false_of_ne hab
      simp only [List.lookup, hne] at h
      exact List.mem_cons_of_mem _ (lookup_mem l a b h)

/-- The price-collection loop appends one resolved price per commodity. -/
theorem get_commodity_prices_loop_eq (mock_prices : List (String × PriceEntry))
    (fetch : String → Except String (Option CommodityPrice))
    (rng : String → ℚ) (location : Location) :
    ∀ (cs : List String) (acc : List CommodityPrice),
      get_commodity_prices_loop mock_prices fetch rng location cs acc
        = acc ++ cs.map (resolve_commodity mock_prices fetch rng location)
  | [], acc => by simp [get_commodity_prices_loop]
  | c :: rest, acc => by
    rw [get_commodity_prices_loop,
      get_commodity_prices_loop_eq mock_prices fetch rng location rest]
    simp

/-- Round-to-nearest never goes below the floor. -/
theorem floor_le_rne (y : ℚ) : ⌊y⌋ ≤ rne y := by
  simp only [rne]
  split_ifs <;> omega

/-- Round-to-nearest never exceeds the ceiling. -/
theorem rne_le_ceil (y : ℚ) : rne y ≤ ⌈y⌉ := by
  have hfc := Int.floor_le_ceil y
  have hlt : ∀ h : (1:ℚ)/2 ≤ y - ⌊y⌋, ⌊y⌋ + 1 ≤ ⌈y⌉ := by
    intro h
    have h1 : (⌊y⌋ : ℚ) < y := by linarith
    have := Int.lt_ceil.mpr h1
    omega
  simp only [rne]
  split_ifs with h1 h2 h3
  · exact hfc
  · exact hlt (by linarith)
  · exact hfc
  · exact hlt (by linarith)

/-- Round-to-nearest moves the value down by at most one half. -/
theorem rne_ge (y : ℚ) : y - 1/2 ≤ (rne y : ℚ) := by
  have hf := Int.floor_le y
  have hc := Int.lt_floor_add_one y
  simp only [rne]
  split_ifs with h1 h2 h3 <;> push_cast <;> linarith

/-- Round-to-nearest moves the value up by at most one half. -/
theorem rne_le (y : ℚ) : (rne y : ℚ) ≤ y + 1/2 := by
  have hf := Int.floor_le y
  have hc := Int.lt_floor_add_one y
  simp only [rne]
  split_ifs with h1 h2 h3 <;> push_cast <;> linarith

/-- Two-decimal rounding moves the value down by at most half a cent. -/
theorem round2_ge (x : ℚ) : x - 1/200 ≤ round2 x := by
  have h := rne_ge (x * 100)
  simp only [round2]
  linarith

/-- Two-decimal rounding moves the value up by at most half a cent. -/
theorem round2_le (x : ℚ) : round2 x ≤ x + 1/200 := by
  have h := rne_le (x * 100)
  simp only [round2]
  linarith

/-- Two-decimal rounding respects integer lower bounds. -/
theorem round2_ge_int (k : ℤ) (x : ℚ) (h : (k : ℚ) ≤ x) : (k : ℚ) ≤ round2 x := by
  have h1 : (100 * k : ℤ) ≤ ⌊x * 100⌋ := Int.le_floor.mpr (by push_cast; linarith)
  have h2 : (100 * k : ℤ) ≤ rne (x * 100) := le_trans h1 (floor_le_rne (x * 100))
  have h3 : ((100 * k : ℤ) : ℚ) ≤ (rne (x * 100) : ℚ) := Int.cast_le.mpr h2
  simp only [round2]
  push_cast at h3
  linarith

/-- Two-decimal rounding respects integer upper bounds. -/
theorem round2_le_int (k : ℤ) (x : ℚ) (h : x ≤ (k : ℚ)) : round2 x ≤ (k : ℚ) := by
  have h1 : ⌈x * 100⌉ ≤ (100 * k : ℤ) := Int.ceil_le.mpr (by push_cast; linarith)
  have h2 : rne (x * 100) ≤ (100 * k : ℤ) := le_trans (rne_le_ceil (x * 100)) h1
  have h3 : (rne (x * 100) : ℚ) ≤ ((100 * k : ℤ) : ℚ) := Int.cast_le.mpr h2
  simp only [round2]
  push_cast at h3
  linarith

/-- Unfolding one price from a trend count. -/
theorem count_trend_cons (p : CommodityPrice) (ps : List CommodityPrice) (t : String) :
    count_trend (p :: ps) t =
      (if p.price_trend = t then 1 else 0) + count_trend ps t := by
  simp only [count_trend, List.filter_cons]
  by_cases h : p.price_trend = t
  · simp [h, Nat.add_comm]
  · simp [h]

/-- Three mutually exclusive trend counts over a batch whose trends all lie
among the three labels partition the batch. -/
theorem count_trend_sum :
    ∀ ps : List CommodityPrice,
      (∀ p ∈ ps, p.price_trend = "increasing" ∨ p.price_trend = "decreasing" ∨
        p.price_trend = "stable") →
      count_trend ps "increasing" + count_trend ps "decreasing" +
        count_trend ps "stable" = ps.length
  | [], _ => by simp [count_trend]
  | p :: ps, h => by
    have hp := h p (List.mem_cons_self p ps)
    have ih := count_trend_sum ps (fun q hq => h q (List.mem_cons_of_mem p hq))
    rw [count_trend_cons, count_trend_cons, count_trend_cons, List.length_cons]
    rcases hp with hp | hp | hp <;>
      simp [hp, (by decide : "increasing" ≠ "decreasing"),
        (by decide : "increasing" ≠ "stable"),
        (by decide : "decreasing" ≠ "increasing"),
        (by decide : "decreasing" ≠ "stable"),
        (by decide : "stable" ≠ "increasing"),
        (by decide : "stable" ≠ "decreasing")] <;> omega

/-- Explicit form of a successful trend query: for a catalog commodity and
at least one day, the query succeeds and the history is the floored
per-day trend price over the day range. -/
theorem get_price_trends_ok (mock_prices : List (String × PriceEntry))
    (commodity : String) (pd : PriceEntry) (days : ℕ)
    (hlk : List.lookup commodity mock_prices = some pd) (hd : 1 ≤ days) :
    ∃ r, get_price_trends mock_prices commodity days = .ok r ∧
      r.price_history = (List.range days).map
        (fun i => max (trend_price pd.current_price pd.trend i)
          (pd.current_price * (1/2))) ∧
      r.trend = pd.trend ∧ r.current_price = pd.current_price := by
  have hne : (List.range days).map
      (fun i => max (trend_price pd.current_price pd.trend i)
        (pd.current_price * (1/2))) ≠ [] := by
    simp [List.range_eq_nil]
    omega
  simp only [get_price_trends, hlk]
  cases hh : ((List.range days).map
      (fun i => max (trend_price pd.current_price pd.trend i)
        (pd.current_price * (1/2)))).head? with
  | none => exact absurd (List.head?_eq_none_iff.mp hh) hne
  | some first =>
    cases hg : ((List.range days).map
        (fun i => max (trend_price pd.current_price pd.trend i)
          (pd.current_price * (1/2)))).getLast? with
    | none => exact absurd (List.getLast?_eq_none_iff.mp hg) hne
    | some last =>
      simp only [hh, hg]
      exact ⟨_, rfl, rfl, rfl, rfl⟩

/-- The pre-floor trend price written in the spec's three-branch form. -/
theorem trend_price_eq_formula (b : ℚ) (t : String) (i : ℕ) :
    trend_price b t i =
      if t = "increasing" then b + 15 * (i : ℚ) + (1/2) * (i : ℚ) ^ 2
      else if t = "decreasing" then b - 8 * (i : ℚ) + (1/5) * (i : ℚ) ^ 2
      else if i % 2 = 0 then b + 5 * (i : ℚ) else b - 3 * (i : ℚ) := by
  simp only [trend_price]
  split_ifs <;> push_cast <;> ring

/-! Claims. -/

/-- C1: for every location and every requested commodity list (or the
catalog order when the list is omitted), `get_commodity_prices` returns
exactly one CommodityPrice per requested commodity in input order — the
batch is the per-commodity resolution mapped over the effective list — and
never fails the batch: a per-commodity failure (an erroring fetch pipeline)
resolves to the synthetic fallback price. -/
theorem get_commodity_prices_one_each
    (mock_prices : List (String × PriceEntry))
    (fetch : String → Except String (Option CommodityPrice))
    (rng : String → ℚ) (location : Location)
    (commodities : Option (List String)) :
    (get_commodity_prices mock_prices fetch rng location commodities).length
      = (effective_commodities mock_prices commodities).length ∧
    get_commodity_prices mock_prices fetch rng location commodities
      = (effective_commodities mock_prices commodities).map
          (resolve_commodity mock_prices fetch rng location) ∧
    (∀ c e : String, fetch c = .error e →
      resolve_commodity mock_prices fetch rng location c
        = create_mock_price mock_prices c location (rng c)) := by
  refine ⟨?_, ?_, ?_⟩
  · rw [get_commodity_prices, get_commodity_prices_loop_eq]
    simp
  · rw [get_commodity_prices, get_commodity_prices_loop_eq]
    simp
  · intro c e h
    simp [resolve_commodity, h]

/-- C1 witness: a single-commodity request against an always-erroring
fetch yields exactly one price, resolved to the synthetic fallback. -/
theorem get_commodity_prices_one_each_witness :
    (get_commodity_prices [] (fun _ => .error "boom") (fun _ => 0) ⟨"Delhi"⟩
        (some ["Rice"])).length = 1 ∧
    resolve_commodity [] (fun _ => .error "boom") (fun _ => 0) ⟨"Delhi"⟩ "Rice"
      = create_mock_price [] "Rice" ⟨"Delhi"⟩ 0 := by
  have h := get_commodity_prices_one_each [] (fun _ => .error "boom") (fun _ => 0)
    ⟨"Delhi"⟩ (some ["Rice"])
  exact ⟨h.1, h.2.2 "Rice" "boom" rfl⟩

/-- C2 counterexample: with catalog baseline 2000 and trend "increasing",
the 3-day history is [2000, 2015.5, 2032]: the day-2 price is
2000 + 15·2 + 0.5·4 = 2032, not the 2033 the claim asserts. -/
theorem get_price_trends_scenario_counterexample :
    (get_price_trends
        [("Wheat", { current_price := 2000, trend := "increasing",
                     markets := ["Delhi"], unit := "quintal" })]
        "Wheat" 3).map (fun r => r.price_history)
      = .ok [2000, 4031/2, 2032] ∧ (2032 : ℚ) ≠ 2033 := by
  constructor
  · simp [get_price_trends, trend_price, List.lookup, List.range_succ, max_def,
      Except.map]
    norm_num
  · norm_num

/-- C2 (amended): for a catalog commodity and days ≥ 1, the trend history
records at day index i the floored value of the three-branch pre-floor
formula — increasing: baseline + 15·i + 0.5·i²; decreasing:
baseline − 8·i + 0.2·i²; stable: baseline + 5·i for even i, baseline − 3·i
for odd i — and for baseline 2000 with trend "increasing" and days = 3 the
prices at day indices [0,1,2] are [2000, 2015.5, 2032]. -/
theorem get_price_trends_formula
    (mock_prices : List (String × PriceEntry)) (commodity : String)
    (pd : PriceEntry) (days : ℕ) (r : TrendResult)
    (hlk : List.lookup commodity mock_prices = some pd) (hd : 1 ≤ days)
    (hr : get_price_trends mock_prices commodity days = .ok r) :
    (∀ i : ℕ, i < days →
      r.price_history[i]? = some (max
        (if pd.trend = "increasing" then
          pd.current_price + 15 * (i : ℚ) + (1/2) * (i : ℚ) ^ 2
         else if pd.trend = "decreasing" then
          pd.current_price - 8 * (i : ℚ) + (1/5) * (i : ℚ) ^ 2
         else if i % 2 = 0 then pd.current_price + 5 * (i : ℚ)
         else pd.current_price - 3 * (i : ℚ))
        (pd.current_price * (1/2)))) ∧
    (get_price_trends
        [("Wheat", { current_price := 2000, trend := "increasing",
                     markets := ["Delhi"], unit := "quintal" })]
        "Wheat" 3).map (fun t => t.price_history) = .ok [2000, 4031/2, 2032] := by
  constructor
  · intro i hi
    obtain ⟨r', e, hhist, _, _⟩ :=
      get_price_trends_ok mock_prices commodity pd days hlk hd
    rw [hr] at e
    obtain rfl := Except.ok.inj e
    rw [hhist, List.getElem?_map, List.getElem?_range hi]
    simp only [Option.map_some']
    rw [trend_price_eq_formula]
  · simp [get_price_trends, trend_price, List.lookup, List.range_succ, max_def,
      Except.map]
    norm_num

/-- C2 witness: the amended formula instantiated at a one-day stable-trend
query over a concrete catalog. -/
theorem get_price_trends_formula_witness :
    (⟨"Rice", "stable", [100], 100, 0⟩ : TrendResult).price_history[0]?
      = some (max
        (if "stable" = "increasing" then
          (100 : ℚ) + 15 * ((0 : ℕ) : ℚ) + (1/2) * ((0 : ℕ) : ℚ) ^ 2
         else if "stable" = "decreasing" then
          (100 : ℚ) - 8 * ((0 : ℕ) : ℚ) + (1/5) * ((0 : ℕ) : ℚ) ^ 2
         else if (0 : ℕ) % 2 = 0 then (100 : ℚ) + 5 * ((0 : ℕ) : ℚ)
         else (100 : ℚ) - 3 * ((0 : ℕ) : ℚ))
        ((100 : ℚ) * (1/2))) :=
  (get_price_trends_formula
    [("Rice", { current_price := 100, trend := "stable",
                markets := [], unit := "quintal" })]
    "Rice"
    { current_price := 100, trend := "stable", markets := [], unit := "quintal" }
    1 ⟨"Rice", "stable", [100], 100, 0⟩
    (by simp [List.lookup]) (by norm_num)
    (by simp [get_price_trends, trend_price, List.lookup, List.range_succ, max_def]
        norm_num)).1 0 (by norm_num)

/-- C3: every price recorded in the trend history of a successful trend
query is at least half the catalog baseline, whatever the trend branch. -/
theorem get_price_trends_floor
    (mock_prices : List (String × PriceEntry)) (commodity : String)
    (pd : PriceEntry) (days : ℕ) (r : TrendResult)
    (hlk : List.lookup commodity mock_prices = some pd) (hd : 1 ≤ days)
    (hr : get_price_trends mock_prices commodity days = .ok r) :
    ∀ p ∈ r.price_history, pd.current_price * (1/2) ≤ p := by
  obtain ⟨r', e, hhist, _, _⟩ :=
    get_price_trends_ok mock_prices commodity pd days hlk hd
  rw [hr] at e
  obtain rfl := Except.ok.inj e
  rw [hhist]
  intro p hp
  rw [List.mem_map] at hp
  obtain ⟨i, _, rfl⟩ := hp
  exact le_max_right _ _

/-- C3 witness: the floor instantiated on a two-day decreasing-trend query
with baseline 3000 — the day-1 price 2992.2 is above 1500. -/
theorem get_price_trends_floor_witness :
    (3000 : ℚ) * (1/2) ≤ 14961/5 := by
  have h := get_price_trends_floor
    [("Rice", { current_price := 3000, trend := "decreasing",
                markets := [], unit := "quintal" })]
    "Rice"
    { current_price := 3000, trend := "decreasing", markets := [], unit := "quintal" }
    2 ⟨"Rice", "decreasing", [3000, 14961/5], 3000, -39/5⟩
    (by simp [List.lookup]) (by norm_num)
    (by simp [get_price_trends, trend_price, List.lookup, List.range_succ, max_def]
        norm_num)
  exact h (14961/5) (by simp)

/-- Bounds of one closeness-to-range factor of the suitability score. -/
theorem if_closeness_bounds (c : Prop) [Decidable c] (d s : ℚ) (hd : 0 ≤ d) (hs : 0 < s) :
    0 ≤ (if c then (1 : ℚ) else max 0 (1 - d / s)) ∧
    (if c then (1 : ℚ) else max 0 (1 - d / s)) ≤ 1 := by
  split_ifs
  · norm_num
  · refine ⟨le_max_left 0 _, max_le (by norm_num) ?_⟩
    have hds : 0 ≤ d / s := div_nonneg hd hs.le
    linarith

/-- C4 counterexample: for a crop in the database and a location absent
from the regional table, the code contributes a regional term of 0, not
the 0.5 the claim asserts for every non-major-crop location: with ideal
weather the code returns 0.75 while the claim's formula gives 0.875. -/
theorem get_crop_suitability_regional_counterexample :
    get_crop_suitability
        [("Rice", { temperature_range := (20, 30),
                    rainfall_requirement := (500, 1500),
                    humidity_requirement := (50, 90) })]
        "Rice" "Atlantis" ⟨some 25, some 1000, some 60⟩ = 3/4 ∧
    crop_suitability_per_claim
        [("Rice", { temperature_range := (20, 30),
                    rainfall_requirement := (500, 1500),
                    humidity_requirement := (50, 90) })]
        "Rice" "Atlantis" ⟨some 25, some 1000, some 60⟩ = 7/8 ∧
    (3/4 : ℚ) ≠ 7/8 := by
  refine ⟨?_, ?_, by norm_num⟩
  · simp [get_crop_suitability, regional_data, List.lookup]
    norm_num
  · simp [crop_suitability_per_claim, regional_data, List.lookup]
    norm_num

/-- C4 (amended): for every crop present in the database, the suitability
score lies in [0,1] and is the arithmetic mean of 4 equally-weighted
factors: the three closeness-to-range scores (1 inside the range, else
max(0, 1 − diff/10), max(0, 1 − diff/500), max(0, 1 − diff/20) with
diff the distance to the nearer endpoint) and a regional term that is 1
when the location is in the regional table and the crop is among its major
crops, 0.5 when the location is in the table and the crop is not, and 0
when the location is not in the regional table. -/
theorem get_crop_suitability_spec (crop_data : List (String × CropInfo))
    (crop location : String) (crop_info : CropInfo) (w : WeatherConditions)
    (hlk : List.lookup crop crop_data = some crop_info) :
    0 ≤ get_crop_suitability crop_data crop location w ∧
    get_crop_suitability crop_data crop location w ≤ 1 ∧
    get_crop_suitability crop_data crop location w =
      ((if crop_info.temperature_range.1 ≤ w.temperature.getD 25 ∧
           w.temperature.getD 25 ≤ crop_info.temperature_range.2 then 1
        else max 0 (1 - min |w.temperature.getD 25 - crop_info.temperature_range.1|
          |w.temperature.getD 25 - crop_info.temperature_range.2| / 10)) +
       (if crop_info.rainfall_requirement.1 ≤ w.rainfall.getD 500 ∧
           w.rainfall.getD 500 ≤ crop_info.rainfall_requirement.2 then 1
        else max 0 (1 - min |w.rainfall.getD 500 - crop_info.rainfall_requirement.1|
          |w.rainfall.getD 500 - crop_info.rainfall_requirement.2| / 500)) +
       (if crop_info.humidity_requirement.1 ≤ w.humidity.getD 60 ∧
           w.humidity.getD 60 ≤ crop_info.humidity_requirement.2 then 1
        else max 0 (1 - min |w.humidity.getD 60 - crop_info.humidity_requirement.1|
          |w.humidity.getD 60 - crop_info.humidity_requirement.2| / 20)) +
       (match List.lookup location regional_data with
        | some regional_info => if crop ∈ regional_info.major_crops then (1 : ℚ) else 1/2
        | none => 0)) / 4 := by
  have hmain : get_crop_suitability crop_data crop location w =
      ((if crop_info.temperature_range.1 ≤ w.temperature.getD 25 ∧
           w.temperature.getD 25 ≤ crop_info.temperature_range.2 then 1
        else max 0 (1 - min |w.temperature.getD 25 - crop_info.temperature_range.1|
          |w.temperature.getD 25 - crop_info.temperature_range.2| / 10)) +
       (if crop_info.rainfall_requirement.1 ≤ w.rainfall.getD 500 ∧
           w.rainfall.getD 500 ≤ crop_info.rainfall_requirement.2 then 1
        else max 0 (1 - min |w.rainfall.getD 500 - crop_info.rainfall_requirement.1|
          |w.rainfall.getD 500 - crop_info.rainfall_requirement.2| / 500)) +
       (if crop_info.humidity_requirement.1 ≤ w.humidity.getD 60 ∧
           w.humidity.getD 60 ≤ crop_info.humidity_requirement.2 then 1
        else max 0 (1 - min |w.humidity.getD 60 - crop_info.humidity_requirement.1|
          |w.humidity.getD 60 - crop_info.humidity_requirement.2| / 20)) +
       (match List.lookup location regional_data with
        | some regional_info => if crop ∈ regional_info.major_crops then (1 : ℚ) else 1/2
        | none => 0)) / 4 := by
    simp only [get_crop_suitability, hlk]
  have ht := if_closeness_bounds
    (crop_info.temperature_range.1 ≤ w.temperature.getD 25 ∧
      w.temperature.getD 25 ≤ crop_info.temperature_range.2)
    (min |w.temperature.getD 25 - crop_info.temperature_range.1|
      |w.temperature.getD 25 - crop_info.temperature_range.2|) 10
    (le_min (abs_nonneg _) (abs_nonneg _)) (by norm_num)
  have hrn := if_closeness_bounds
    (crop_info.rainfall_requirement.1 ≤ w.rainfall.getD 500 ∧
      w.rainfall.getD 500 ≤ crop_info.rainfall_requirement.2)
    (min |w.rainfall.getD 500 - crop_info.rainfall_requirement.1|
      |w.rainfall.getD 500 - crop_info.rainfall_requirement.2|) 500
    (le_min (abs_nonneg _) (abs_nonneg _)) (by norm_num)
  have hh := if_closeness_bounds
    (crop_info.humidity_requirement.1 ≤ w.humidity.getD 60 ∧
      w.humidity.getD 60 ≤ crop_info.humidity_requirement.2)
    (min |w.humidity.getD 60 - crop_info.humidity_requirement.1|
      |w.humidity.getD 60 - crop_info.humidity_requirement.2|) 20
    (le_min (abs_nonneg _) (abs_nonneg _)) (by norm_num)
  have hg : 0 ≤ (match List.lookup location regional_data with
        | some regional_info => if crop ∈ regional_info.major_crops then (1 : ℚ) else 1/2
        | none => 0) ∧
      (match List.lookup location regional_data with
        | some regional_info => if crop ∈ regional_info.major_crops then (1 : ℚ) else 1/2
        | none => 0) ≤ 1 := by
    cases List.lookup location regional_data with
    | none => norm_num
    | some regional_info =>
      by_cases hmc : crop ∈ regional_info.major_crops <;> norm_num [hmc]
  rw [hmain]
  refine ⟨by linarith [ht.1, hrn.1, hh.1, hg.1], by linarith [ht.2, hrn.2, hh.2, hg.2], rfl⟩

/-- C4 witness: the amended characterization at a concrete crop, known
location and in-range weather. -/
theorem get_crop_suitability_spec_witness :
    0 ≤ get_crop_suitability
        [("Rice", { temperature_range := (20, 30),
                    rainfall_requirement := (500, 1500),
                    humidity_requirement := (50, 90) })]
        "Rice" "Punjab" ⟨some 25, some 1000, some 60⟩ ∧
    get_crop_suitability
        [("Rice", { temperature_range := (20, 30),
                    rainfall_requirement := (500, 1500),
                    humidity_requirement := (50, 90) })]
        "Rice" "Punjab" ⟨some 25, some 1000, some 60⟩ ≤ 1 := by
  have h := get_crop_suitability_spec
    [("Rice", { temperature_range := (20, 30),
                rainfall_requirement := (500, 1500),
                humidity_requirement := (50, 90) })]
    "Rice" "Punjab"
    { temperature_range := (20, 30),
      rainfall_requirement := (500, 1500),
      humidity_requirement := (50, 90) }
    ⟨some 25, some 1000, some 60⟩ (by simp [List.lookup])
  exact ⟨h.1, h.2.1⟩

/-- C5: `_find_closest_market` returns the table-mapped market for any
state that is a key of the fixed state→market table, independently of the
known-markets list; for a state not in the table it returns the first
known market when the list is non-empty, and the state itself otherwise;
in particular Maharashtra with no known markets resolves to Mumbai. -/
theorem find_closest_market_spec :
    (∀ s m : String, List.lookup s state_market_mapping = some m →
      ∀ markets : List String, find_closest_market ⟨s⟩ markets = m) ∧
    (∀ s : String, List.lookup s state_market_mapping = none →
      (∀ (x : String) (rest : List String),
        find_closest_market ⟨s⟩ (x :: rest) = x) ∧
      find_closest_market ⟨s⟩ [] = s) ∧
    find_closest_market ⟨"Maharashtra"⟩ [] = "Mumbai" := by
  refine ⟨?_, ?_, ?_⟩
  · intro s m h markets
    simp [find_closest_market, h]
  · intro s h
    exact ⟨fun x rest => by simp [find_closest_market, h],
      by simp [find_closest_market, h]⟩
  · decide

/-- C5 witness: the table case at Punjab (ignoring the known markets), and
the two fallback cases at a state outside the table. -/
theorem find_closest_market_spec_witness :
    find_closest_market ⟨"Punjab"⟩ ["Ludhiana"] = "Punjab" ∧
    find_closest_market ⟨"Goa"⟩ ["Pune"] = "Pune" ∧
    find_closest_market ⟨"Goa"⟩ [] = "Goa" :=
  ⟨find_closest_market_spec.1 "Punjab" "Punjab" (by decide) ["Ludhiana"],
   (find_closest_market_spec.2.1 "Goa" (by decide)).1 "Pune" [],
   (find_closest_market_spec.2.1 "Goa" (by decide)).2⟩

/-- C6 counterexample: the claim that the returned string is always
non-empty fails — for a location with an empty state and no known markets
the function returns the empty string. -/
theorem find_closest_market_empty_counterexample :
    ¬ (∀ (location : Location) (markets : List String),
        find_closest_market location markets ≠ "") := by
  intro h
  exact h ⟨""⟩ [] (by decide)

/-- C6 (amended): `_find_closest_market` is total by construction (it is a
pure function into String), and the string it returns is non-empty
provided the location's state is non-empty and every known-market entry is
non-empty. -/
theorem find_closest_market_nonempty (location : Location) (markets : List String)
    (hs : location.state ≠ "") (hm : ∀ m ∈ markets, m ≠ "") :
    find_closest_market location markets ≠ "" := by
  have hvals : ∀ p ∈ state_market_mapping, p.2 ≠ "" := by decide
  cases h : List.lookup location.state state_market_mapping with
  | some m =>
    have := hvals _ (lookup_mem _ _ _ h)
    simpa [find_closest_market, h] using this
  | none =>
    cases markets with
    | nil => simpa [find_closest_market, h] using hs
    | cons x rest =>
      have := hm x (List.mem_cons_self x rest)
      simpa [find_closest_market, h] using this

/-- C6 witness: a non-table state with one non-empty known market resolves
to a non-empty market name. -/
theorem find_closest_market_nonempty_witness :
    find_closest_market ⟨"Goa"⟩ ["Pune"] ≠ "" :=
  find_closest_market_nonempty ⟨"Goa"⟩ ["Pune"] (by decide) (by decide)

/-- C7: analysis and trend queries signal errors as structured results —
an empty batch analyzes to the explicit no-data result and a trend query
for a commodity absent from the catalog returns the explicit not-found
result, neither being an exception (both functions are total). -/
theorem structured_error_results :
    get_market_analysis [] = .error "No price data available" ∧
    (∀ (mock_prices : List (String × PriceEntry)) (commodity : String) (days : ℕ),
      List.lookup commodity mock_prices = none →
      get_price_trends mock_prices commodity days = .error "Commodity not found") := by
  constructor
  · rfl
  · intro mock_prices commodity days h
    simp [get_price_trends, h]

/-- C7 witness: the not-found branch at a concrete unknown commodity. -/
theorem structured_error_results_witness :
    get_market_analysis [] = .error "No price data available" ∧
    get_price_trends [] "Gold" 5 = .error "Commodity not found" :=
  ⟨structured_error_results.1, structured_error_results.2 [] "Gold" 5 rfl⟩

/-- A successful market analysis over a non-empty batch, with its trend
distribution made explicit. -/
theorem get_market_analysis_ok (p : CommodityPrice) (ps : List CommodityPrice) :
    ∃ s, get_market_analysis (p :: ps) = .ok s ∧
      s.trend_distribution =
        { increasing := count_trend (p :: ps) "increasing"
          decreasing := count_trend (p :: ps) "decreasing"
          stable := count_trend (p :: ps) "stable" } :=
  ⟨_, rfl, rfl⟩

/-- C8: for every non-empty batch whose trends all lie among increasing,
decreasing and stable, the three counts of the analysis result's trend
distribution sum exactly to the batch size. -/
theorem trend_distribution_sums_to_length (prices : List CommodityPrice)
    (s : MarketSummary)
    (hall : ∀ p ∈ prices, p.price_trend = "increasing" ∨
      p.price_trend = "decreasing" ∨ p.price_trend = "stable")
    (h : get_market_analysis prices = .ok s) :
    s.trend_distribution.increasing + s.trend_distribution.decreasing +
      s.trend_distribution.stable = prices.length := by
  cases prices with
  | nil => exact absurd h (by simp [get_market_analysis])
  | cons p ps =>
    obtain ⟨s', e, hd⟩ := get_market_analysis_ok p ps
    rw [h] at e
    obtain rfl := Except.ok.inj e
    rw [hd]
    exact count_trend_sum _ hall

/-- C8 witness: a concrete two-price batch with one increasing and one
stable trend — the distribution counts sum to 2. -/
theorem trend_distribution_sums_to_length_witness :
    ({ market_sentiment := "Neutral", average_price := 150,
       trend_distribution := { increasing := 1, decreasing := 0, stable := 1 },
       best_performing := { commodity := "Wheat", price := 200, trend := "stable" },
       worst_performing := { commodity := "Rice", price := 100, trend := "increasing" },
       market_recommendation :=
         "Market is stable - focus on crops with consistent demand" }
      : MarketSummary).trend_distribution.increasing +
    ({ market_sentiment := "Neutral", average_price := 150,
       trend_distribution := { increasing := 1, decreasing := 0, stable := 1 },
       best_performing := { commodity := "Wheat", price := 200, trend := "stable" },
       worst_performing := { commodity := "Rice", price := 100, trend := "increasing" },
       market_recommendation :=
         "Market is stable - focus on crops with consistent demand" }
      : MarketSummary).trend_distribution.decreasing +
    ({ market_sentiment := "Neutral", average_price := 150,
       trend_distribution := { increasing := 1, decreasing := 0, stable := 1 },
       best_performing := { commodity := "Wheat", price := 200, trend := "stable" },
       worst_performing := { commodity := "Rice", price := 100, trend := "increasing" },
       market_recommendation :=
         "Market is stable - focus on crops with consistent demand" }
      : MarketSummary).trend_distribution.stable = 2 := by
  have h := trend_distribution_sums_to_length
    [⟨"Rice", 100, "increasing", "Delhi"⟩, ⟨"Wheat", 200, "stable", "Delhi"⟩]
    { market_sentiment := "Neutral", average_price := 150,
      trend_distribution := { increasing := 1, decreasing := 0, stable := 1 },
      best_performing := { commodity := "Wheat", price := 200, trend := "stable" },
      worst_performing := { commodity := "Rice", price := 100, trend := "increasing" },
      market_recommendation :=
        "Market is stable - focus on crops with consistent demand" }
    (by decide)
    (by simp [get_market_analysis, count_trend, calculate_market_sentiment,
          get_market_recommendation, max_by_price, min_by_price, List.filter]
        norm_num [round2, rne])
  exact h

/-- C9 counterexample: for catalog baseline 449/9000 and the extreme legal
draw u = −(449/90000) (which is −0.1 × baseline), the synthetic price is
round2(0.0449) = 0.04, strictly below 0.9 × baseline = 0.0449 — the claimed
interval [0.9·b, 1.1·b] does not survive the 2-decimal rounding. -/
theorem create_mock_price_interval_counterexample :
    -((449/9000 : ℚ) * (1/10)) ≤ -449/90000 ∧ (-449/90000 : ℚ) ≤ (449/9000) * (1/10) ∧
    (create_mock_price
        [("X", { current_price := 449/9000, trend := "stable",
                 markets := ["Delhi"], unit := "quintal" })]
        "X" ⟨"Delhi"⟩ (-449/90000)).current_price = 1/25 ∧
    (1/25 : ℚ) < (449/9000) * (9/10) := by
  refine ⟨by norm_num, by norm_num, ?_, by norm_num⟩
  simp [create_mock_price, find_closest_market, List.lookup, state_market_mapping]
  norm_num [round2, rne]

/-- C9 (amended): the synthetic current price equals the baseline plus the
bounded uniform draw rounded to 2 decimals, and hence lies within
[0.9·b − 0.005, 1.1·b + 0.005] for any catalog baseline b > 0; for a
commodity absent from the catalog the default baseline is 2000 and the
price lies within the exact interval [1800, 2200]. -/
theorem create_mock_price_price_bounds
    (mock_prices : List (String × PriceEntry)) (commodity : String)
    (location : Location) (u : ℚ) :
    (∀ (pd : PriceEntry) (b : ℚ),
      List.lookup commodity mock_prices = some pd → pd.current_price = b →
      0 < b → -(b * (1/10)) ≤ u → u ≤ b * (1/10) →
      (create_mock_price mock_prices commodity location u).current_price
        = round2 (b + u) ∧
      b * (9/10) - 1/200 ≤
        (create_mock_price mock_prices commodity location u).current_price ∧
      (create_mock_price mock_prices commodity location u).current_price
        ≤ b * (11/10) + 1/200) ∧
    (List.lookup commodity mock_prices = none →
      -((2000 : ℚ) * (1/10)) ≤ u → u ≤ (2000 : ℚ) * (1/10) →
      (create_mock_price mock_prices commodity location u).current_price
        = round2 (2000 + u) ∧
      (1800 : ℚ) ≤ (create_mock_price mock_prices commodity location u).current_price ∧
      (create_mock_price mock_prices commodity location u).current_price ≤ 2200) := by
  constructor
  · intro pd b hlk hb hb0 hu1 hu2
    have hcp : (create_mock_price mock_prices commodity location u).current_price
        = round2 (b + u) := by
      simp [create_mock_price, hlk, hb]
    refine ⟨hcp, ?_, ?_⟩
    · have h1 := round2_ge (b + u)
      rw [hcp]
      linarith
    · have h1 := round2_le (b + u)
      rw [hcp]
      linarith
  · intro hlk hu1 hu2
    have hcp : (create_mock_price mock_prices commodity location u).current_price
        = round2 (2000 + u) := by
      simp [create_mock_price, hlk]
    refine ⟨hcp, ?_, ?_⟩
    · have h1 := round2_ge_int 1800 (2000 + u) (by push_cast; linarith)
      rw [hcp]
      push_cast at h1
      linarith
    · have h1 := round2_le_int 2200 (2000 + u) (by push_cast; linarith)
      rw [hcp]
      push_cast at h1
      linarith

/-- C9 witness: a catalog commodity at baseline 2000 with draw +100, and a
missing commodity with draw 0 at the default baseline. -/
theorem create_mock_price_price_bounds_witness :
    ((create_mock_price
        [("Rice", { current_price := 2000, trend := "increasing",
                    markets := ["Delhi"], unit := "quintal" })]
        "Rice" ⟨"Delhi"⟩ 100).current_price = round2 (2000 + 100) ∧
      (2000 : ℚ) * (9/10) - 1/200 ≤
        (create_mock_price
          [("Rice", { current_price := 2000, trend := "increasing",
                      markets := ["Delhi"], unit := "quintal" })]
          "Rice" ⟨"Delhi"⟩ 100).current_price ∧
      (create_mock_price
          [("Rice", { current_price := 2000, trend := "increasing",
                      markets := ["Delhi"], unit := "quintal" })]
          "Rice" ⟨"Delhi"⟩ 100).current_price ≤ (2000 : ℚ) * (11/10) + 1/200) ∧
    ((create_mock_price [] "Rice" ⟨"Delhi"⟩ 0).current_price = round2 (2000 + 0) ∧
      (1800 : ℚ) ≤ (create_mock_price [] "Rice" ⟨"Delhi"⟩ 0).current_price ∧
      (create_mock_price [] "Rice" ⟨"Delhi"⟩ 0).current_price ≤ 2200) := by
  constructor
  · exact (create_mock_price_price_bounds
      [("Rice", { current_price := 2000, trend := "increasing",
                  markets := ["Delhi"], unit := "quintal" })]
      "Rice" ⟨"Delhi"⟩ 100).1
      { current_price := 2000, trend := "increasing",
        markets := ["Delhi"], unit := "quintal" } 2000
      (by simp [List.lookup]) rfl (by norm_num) (by norm_num) (by norm_num)
  · exact (create_mock_price_price_bounds [] "Rice" ⟨"Delhi"⟩ 0).2
      rfl (by norm_num) (by norm_num)

/-- C10: every CommodityPrice successfully obtained from the Agmarknet
fetch path carries price_trend "stable", for every commodity, payload and
location; consequently a stable price contributes to neither the
increasing nor the decreasing count used by the market analysis. -/
theorem agmarknet_price_trend_stable :
    (∀ (http : String → Except String AgmarknetResponse) (commodity : String)
        (location : Location) (p : CommodityPrice),
      fetch_agmarknet_price http commodity location = some p →
      p.price_trend = "stable") ∧
    (∀ (p : CommodityPrice) (ps : List CommodityPrice), p.price_trend = "stable" →
      count_trend (p :: ps) "increasing" = count_trend ps "increasing" ∧
      count_trend (p :: ps) "decreasing" = count_trend ps "decreasing") := by
  constructor
  · intro http commodity location p h
    unfold fetch_agmarknet_price at h
    cases hc : List.lookup commodity commodity_codes with
    | none =>
      simp only [hc] at h
      exact Option.noConfusion h
    | some commodity_code =>
      simp only [hc] at h
      cases hr : http commodity_code with
      | error e =>
        simp only [hr] at h
        exact Option.noConfusion h
      | ok response =>
        simp only [hr] at h
        by_cases hs : response.status_code = 200
        · simp only [if_pos hs] at h
          cases hp : response.prices with
          | nil =>
            simp only [hp] at h
            exact Option.noConfusion h
          | cons latest_price rest =>
            simp only [hp] at h
            obtain rfl := Option.some.inj h
            rfl
        · simp only [if_neg hs] at h
          exact Option.noConfusion h
  · intro p ps hp
    constructor <;> rw [count_trend_cons] <;> simp [hp]

/-- C10 witness: a successful concrete Agmarknet response yields a price
with trend "stable", and prepending it changes neither directional count. -/
theorem agmarknet_price_trend_stable_witness :
    (⟨"Rice", 2500, "stable", "Azadpur"⟩ : CommodityPrice).price_trend = "stable" ∧
    count_trend [⟨"Rice", 2500, "stable", "Azadpur"⟩] "increasing"
      = count_trend [] "increasing" := by
  have h1 := agmarknet_price_trend_stable.1
    (fun _ => .ok { status_code := 200, prices := [{ price := some 2500, market := some "Azadpur" }] })
    "Rice" ⟨"Delhi"⟩ ⟨"Rice", 2500, "stable", "Azadpur"⟩
    (by simp [fetch_agmarknet_price, List.lookup, commodity_codes])
  have h2 := agmarknet_price_trend_stable.2 ⟨"Rice", 2500, "stable", "Azadpur"⟩ [] rfl
  exact ⟨h1, h2.1⟩
